import Mathlib

/-!
# Railclaw — shallow embedding of the payment core

Definitions are translated from the repository sources:
* routing: `src/unnamed/part_017` (Service Orchestrator — Operating Instructions,
  Step 2/3) and `src/workspace-orchestrator/skills/boundary-enforcer/SKILL.md`
  (Check #3);
* direct monitor: `src/shared/scripts/monitor-transaction.ts`;
* bridge monitor: `src/shared/scripts/monitor-solana-deposit.ts`;
* bridge record creation: modelled from the spec (see the doc comment on
  `createBridgeRecordModel`).

Machine integers are modelled as `Nat` (the TypeScript sources use `bigint`
arithmetic, whose `/` is floor division on non-negative values, matching `Nat`
division).  Byte buffers are `List Nat` with each entry a byte value.  Remote
I/O results (RPC polls, transaction submission, delivered logs) are passed to
the embedded state machines as explicit arguments.
-/

namespace Railclaw

/-! ## Policy routing

`routeStep3` embeds Step 3 of the orchestrator operating instructions
(`src/unnamed/part_017`, lines 36–46): the bridge test is applied first.

`routeEnforcerCheck3` embeds Check #3 of the boundary-enforcer skill
(`src/workspace-orchestrator/skills/boundary-enforcer/SKILL.md`, lines 27–42):
the direct test is applied first.  The two procedures disagree exactly when the
requested chain is both in `specification.allowed_chains` and in
`cross_chain.user_payable_chains` with `cross_chain.bridge.enabled = true`.

Chain tags are compared as canonical (lowercased) strings; the sources state
comparisons are case-insensitive. -/

structure Policy where
  status : String
  onboarded : Bool
  allowed_chains : List String
  user_payable_chains : List String
  bridgeEnabled : Bool
  bridgeSettlementChain : String
deriving Repr, DecidableEq

inductive RouteDecision where
  | notReady
  | bridge (settlementChain : String)
  | direct
  | rejected (violation : String)
deriving Repr, DecidableEq

def routeStep3 (p : Policy) (chain : String) : RouteDecision :=
  if p.user_payable_chains.contains chain && p.bridgeEnabled then
    .bridge p.bridgeSettlementChain
  else if p.allowed_chains.contains chain then
    .direct
  else
    .rejected "chain"

def routeEnforcerCheck3 (p : Policy) (chain : String) : RouteDecision :=
  if p.allowed_chains.contains chain then
    .direct
  else if p.user_payable_chains.contains chain && p.bridgeEnabled then
    .bridge p.bridgeSettlementChain
  else
    .rejected "chain"

/-- Step 2 of the operating instructions: reject with `not_ready` unless the
policy is `active` and the business is onboarded, then route per Step 3. -/
def orchestratorDecision (p : Policy) (chain : String) : RouteDecision :=
  if p.status = "active" && p.onboarded then routeStep3 p chain
  else .notReady

/-- A policy whose requested chain is in both `allowed_chains` and
`user_payable_chains`, with the bridge enabled: the two routing procedures in
the source disagree on it. -/
def overlapPolicy : Policy :=
  { status := "active"
    onboarded := true
    allowed_chains := ["polygon", "solana"]
    user_payable_chains := ["solana"]
    bridgeEnabled := true
    bridgeSettlementChain := "polygon" }

end Railclaw

namespace Railclaw

/-- C1 (counterexample). The claim says the route is `bridge` if and only if
the chain is in `cross_chain.user_payable_chains` and `bridge.enabled`, with
the bridge test applied before the direct test.  The boundary-enforcer skill's
Check #3 applies the direct test first: on a policy where "solana" is in both
`allowed_chains` and `user_payable_chains` with the bridge enabled it routes
`direct`, while the orchestrator operating instructions (part_017 Step 3)
route `bridge` — so the claimed route decision does not hold of the
boundary-enforcer procedure. -/
theorem routing_order_disagreement :
    routeEnforcerCheck3 overlapPolicy "solana" = RouteDecision.direct ∧
    overlapPolicy.user_payable_chains.contains "solana" = true ∧
    overlapPolicy.bridgeEnabled = true ∧
    routeStep3 overlapPolicy "solana" = RouteDecision.bridge "polygon" := by
  refine ⟨rfl, rfl, rfl, rfl⟩

/-- C1 (amended). Under the orchestrator operating instructions (part_017,
Step 2 + Step 3), for an active, onboarded policy the decision is exactly:
`bridge` (with the settlement chain set to `cross_chain.bridge.settlement_chain`)
iff the chain is in `user_payable_chains` and the bridge is enabled; otherwise
`direct` iff the chain is in `allowed_chains`; otherwise rejected with
violation "chain" — the bridge test coming first.  The boundary-enforcer
skill, by contrast, routes `direct` whenever the chain is in `allowed_chains`,
regardless of the bridge configuration. -/
theorem orchestrator_routing_exact (p : Policy) (chain : String)
    (hactive : p.status = "active") (hon : p.onboarded = true) :
    (orchestratorDecision p chain = .bridge p.bridgeSettlementChain ↔
        p.user_payable_chains.contains chain = true ∧ p.bridgeEnabled = true) ∧
    (orchestratorDecision p chain = .direct ↔
        ¬(p.user_payable_chains.contains chain = true ∧ p.bridgeEnabled = true) ∧
          p.allowed_chains.contains chain = true) ∧
    (orchestratorDecision p chain = .rejected "chain" ↔
        ¬(p.user_payable_chains.contains chain = true ∧ p.bridgeEnabled = true) ∧
          ¬p.allowed_chains.contains chain = true) ∧
    (p.allowed_chains.contains chain = true →
        routeEnforcerCheck3 p chain = .direct) := by
  have hgate : orchestratorDecision p chain = routeStep3 p chain := by
    simp [orchestratorDecision, hactive, hon]
  rw [hgate]
  cases hc1 : p.user_payable_chains.contains chain <;>
    cases hc2 : p.bridgeEnabled <;>
      cases hc3 : p.allowed_chains.contains chain <;>
        simp only [routeStep3, routeEnforcerCheck3, hc1, hc2, hc3] <;> simp

/-- C1 witness: the amended routing characterisation evaluated on the
overlap policy. -/
theorem orchestrator_routing_exact_witness :
    (orchestratorDecision overlapPolicy "solana" = .bridge "polygon" ↔
        overlapPolicy.user_payable_chains.contains "solana" = true ∧
          overlapPolicy.bridgeEnabled = true) ∧
    (orchestratorDecision overlapPolicy "solana" = .direct ↔
        ¬(overlapPolicy.user_payable_chains.contains "solana" = true ∧
            overlapPolicy.bridgeEnabled = true) ∧
          overlapPolicy.allowed_chains.contains "solana" = true) ∧
    (orchestratorDecision overlapPolicy "solana" = .rejected "chain" ↔
        ¬(overlapPolicy.user_payable_chains.contains "solana" = true ∧
            overlapPolicy.bridgeEnabled = true) ∧
          ¬overlapPolicy.allowed_chains.contains "solana" = true) ∧
    (overlapPolicy.allowed_chains.contains "solana" = true →
        routeEnforcerCheck3 overlapPolicy "solana" = .direct) :=
  orchestrator_routing_exact overlapPolicy "solana" rfl rfl

end Railclaw

namespace Railclaw

/-! ## Direct EVM monitor (`src/shared/scripts/monitor-transaction.ts`)

Addresses and topics are 256-bit words modelled as `Nat`; an address occupies
the low 160 bits (the script compares lowercased hex strings, and
`'0x' + topic.slice(-40)` is numerically the topic modulo `2^160`).  `bigint`
division in the script is floor division, i.e. `Nat` division here. -/

def TWO160 : Nat := 2 ^ 160

structure EvmLog where
  topics : List Nat
  data : Nat
  txHash : String
  blockNumber : Nat
deriving Repr, DecidableEq

/-- `isBridgeFill` (monitor-transaction.ts lines 65–68): a log whose
`topics[1]` (sender) is one of the known SpokePool addresses. -/
def isBridgeFill (bridgeSenders : List Nat) (log : EvmLog) : Bool :=
  if log.topics.length < 2 then false
  else bridgeSenders.contains (log.topics.getD 1 0 % TWO160)

/-- The `getLogs` / subscription topic filter
`[TRANSFER_TOPIC, null, recipientTopic]` (lines 132–137, 167–168): only logs
with `topics[0]` the Transfer topic and `topics[2]` the zero-padded wallet are
delivered to the monitor. -/
def erc20TransferDelivered (transferTopic wallet : Nat) (log : EvmLog) : Bool :=
  log.topics.length == 3 && log.topics.getD 0 0 == transferTopic &&
    log.topics.getD 2 0 == wallet

/-- `minAmount = (expectedAmount * 99n) / 100n` (line 234). -/
def minAmountOf (expected : Nat) : Nat := expected * 99 / 100

/-- `maxAmount = (expectedAmount * 110n) / 100n` (line 235). -/
def maxAmountOf (expected : Nat) : Nat := expected * 110 / 100

/-- The acceptance test applied to each delivered log (lines 138–144,
169–176): skip Across relay fills, then require
`minAmount ≤ transferred ≤ maxAmount`. -/
def erc20Matched (transferTopic : Nat) (bridgeSenders : List Nat)
    (wallet minAmount maxAmount : Nat) (log : EvmLog) : Bool :=
  erc20TransferDelivered transferTopic wallet log &&
    !isBridgeFill bridgeSenders log &&
    decide (minAmount ≤ log.data) && decide (log.data ≤ maxAmount)

/-- `waitForERC20Transfer` resolves with the first delivered log passing the
acceptance test (historical chunks in order, then the live subscription). -/
def waitForERC20TransferResult (transferTopic : Nat) (bridgeSenders : List Nat)
    (wallet minAmount maxAmount : Nat) (logs : List EvmLog) : Option EvmLog :=
  logs.find? (erc20Matched transferTopic bridgeSenders wallet minAmount maxAmount)

/-- `getTokenDecimals` (lines 87–98): the on-chain `decimals()` result, or 6
when the call fails. -/
def getTokenDecimalsModel (onChain : Option Nat) : Nat := onChain.getD 6

/-- `pollForNativeTransfer`'s per-transaction test (lines 193–196):
`tx.to?.toLowerCase() === wallet && parseFloat(formatEther(tx.value)) >= amount * 0.99`.
The floating-point comparison is modelled as exact rational arithmetic
(`formatEther` divides the wei value by `10^18`). -/
def nativeTxMatched (wallet : Nat) (amount : ℚ) (txTo : Option Nat)
    (valueWei : Nat) : Bool :=
  (txTo == some wallet) && decide (amount * (99 / 100) ≤ (valueWei : ℚ) / 10 ^ 18)

/-- The on-disk payment record (`pending/<payment_id>.json`): the four fields
`updatePaymentRecord` may touch, plus all remaining key/value pairs. -/
structure PaymentRecord where
  status : String
  tx_hash : Option String
  confirmations : Option Nat
  confirmed_at : Option String
  rest : List (String × String)
deriving Repr, DecidableEq

/-- `updatePaymentRecord` (monitor-transaction.ts lines 73–85), acting on a
parsed record: set `status`; set `tx_hash` when the `txHash` argument is a
truthy (non-empty) string; set `confirmations` when that argument is given;
set `confirmed_at` to the current time when the new status is `confirmed`. -/
def updatePaymentRecord (r : PaymentRecord) (status : String)
    (txHash : Option String) (confirmations : Option Nat) (now : String) :
    PaymentRecord :=
  { r with
    status := status
    tx_hash := match txHash with
      | some h => if h = "" then r.tx_hash else some h
      | none => r.tx_hash
    confirmations := match confirmations with
      | some c => some c
      | none => r.confirmations
    confirmed_at := if status = "confirmed" then some now else r.confirmed_at }

/-- The file-level behaviour of `updatePaymentRecord`: when the record file
cannot be read or parsed (`none`), the catch branch only logs a warning and
the file is left unchanged. -/
def updatePaymentRecordFile (file : Option PaymentRecord) (status : String)
    (txHash : Option String) (confirmations : Option Nat) (now : String) :
    Option PaymentRecord :=
  match file with
  | none => none
  | some r => some (updatePaymentRecord r status txHash confirmations now)

end Railclaw

namespace Railclaw

/-- A concrete Transfer log accepted by the direct monitor against an expected
amount of 101 base units: recipient topic 5, sender topic 1, amount 99. -/
def sampleTransferLog : EvmLog :=
  { topics := [7, 1, 5], data := 99, txHash := "0xabc", blockNumber := 3 }

/-- C2 (counterexample). The claim says a confirmed native transfer's value
lies in `[0.99·expected, 1.10·expected]` and an ERC-20 transfer satisfies
`expected·0.99 ≤ t`.  The native path (monitor-transaction.ts line 195) only
checks `value ≥ 0.99·amount`, so a transfer of 220 tokens is accepted against
an expected 100 (value `2.2·expected`, outside the claimed window); and the
ERC-20 lower bound is the floor `expected·99/100`, so with
`expected = 101` a transfer of `t = 99 < 0.99·101` is accepted. -/
theorem direct_monitor_window_counterexample :
    (nativeTxMatched 5 100 (some 5) (220 * 10 ^ 18) = true ∧
      ¬((220 * 10 ^ 18 : ℚ) / 10 ^ 18 ≤ (110 / 100) * 100)) ∧
    (erc20Matched 7 [] 5 (minAmountOf 101) (maxAmountOf 101)
        { topics := [7, 1, 5], data := 99, txHash := "0xabc", blockNumber := 3 } = true ∧
      ¬((99 / 100 : ℚ) * 101 ≤ 99)) := by
  refine ⟨⟨?_, by norm_num⟩, ⟨by decide, by norm_num⟩⟩
  · unfold nativeTxMatched
    norm_num

/-- C2 (amended). Every transfer the direct monitor accepts as the payment:
for ERC-20, the Transfer log's recipient topic (`topics[2]`) equals the
monitored wallet, the sender (`topics[1]`) is not in the known SpokePool set,
and the transferred amount `t` satisfies
`⌊expected·99/100⌋ ≤ t ≤ ⌊expected·110/100⌋` (integer floor division; the
upper bound implies `t ≤ 1.10·expected`, while the accepted lower bound can be
one base unit below `0.99·expected`), where `expected = parse_units(amount,
decimals)` and decimals default to 6 when the on-chain `decimals()` call
fails; for native tokens the transaction is accepted exactly when its `to`
equals the wallet and `value ≥ 0.99·amount`, with no upper bound. -/
theorem direct_monitor_accepted_transfer_bounds (transferTopic : Nat)
    (bridgeSenders : List Nat) (wallet expected : Nat) (logs : List EvmLog)
    (log : EvmLog)
    (hfound : waitForERC20TransferResult transferTopic bridgeSenders wallet
        (minAmountOf expected) (maxAmountOf expected) logs = some log) :
    log.topics.getD 2 0 = wallet ∧
    bridgeSenders.contains (log.topics.getD 1 0 % TWO160) = false ∧
    expected * 99 / 100 ≤ log.data ∧
    log.data ≤ expected * 110 / 100 ∧
    (log.data : ℚ) ≤ (110 / 100) * (expected : ℚ) ∧
    getTokenDecimalsModel none = 6 ∧
    (∀ (amount : ℚ) (txTo : Option Nat) (valueWei : Nat),
      nativeTxMatched wallet amount txTo valueWei = true ↔
        txTo = some wallet ∧ amount * (99 / 100) ≤ (valueWei : ℚ) / 10 ^ 18) := by
  have hp := List.find?_some hfound
  unfold erc20Matched at hp
  simp only [Bool.and_eq_true, Bool.not_eq_true', decide_eq_true_eq] at hp
  obtain ⟨⟨⟨hdeliv, hnofill⟩, hmin⟩, hmax⟩ := hp
  unfold erc20TransferDelivered at hdeliv
  simp only [Bool.and_eq_true, beq_iff_eq] at hdeliv
  obtain ⟨⟨hlen, _⟩, hrecip⟩ := hdeliv
  have hsender : bridgeSenders.contains (log.topics.getD 1 0 % TWO160) = false := by
    unfold isBridgeFill at hnofill
    rw [if_neg (by omega)] at hnofill
    exact hnofill
  refine ⟨hrecip, hsender, hmin, hmax, ?_, rfl, ?_⟩
  · calc (log.data : ℚ) ≤ ((expected * 110 / 100 : Nat) : ℚ) := by
          exact_mod_cast hmax
      _ ≤ ((expected * 110 : Nat) : ℚ) / 100 := by
          exact_mod_cast Nat.cast_div_le
      _ = (110 / 100) * (expected : ℚ) := by push_cast; ring
  · intro amount txTo valueWei
    unfold nativeTxMatched
    simp [Bool.and_eq_true, decide_eq_true_eq]

/-- C2 witness: the amended bounds evaluated at a concrete accepted
transfer. -/
theorem direct_monitor_accepted_transfer_bounds_witness :
    sampleTransferLog.topics.getD 2 0 = 5 ∧
    List.contains [] (sampleTransferLog.topics.getD 1 0 % TWO160) = false ∧
    101 * 99 / 100 ≤ sampleTransferLog.data ∧
    sampleTransferLog.data ≤ 101 * 110 / 100 ∧
    (sampleTransferLog.data : ℚ) ≤ (110 / 100) * ((101 : Nat) : ℚ) ∧
    getTokenDecimalsModel none = 6 ∧
    (∀ (amount : ℚ) (txTo : Option Nat) (valueWei : Nat),
      nativeTxMatched 5 amount txTo valueWei = true ↔
        txTo = some 5 ∧ amount * (99 / 100) ≤ (valueWei : ℚ) / 10 ^ 18) :=
  direct_monitor_accepted_transfer_bounds 7 [] 5 101
    [sampleTransferLog] sampleTransferLog (by decide)

end Railclaw

namespace Railclaw

/-- C10. `updatePaymentRecord` changes at most `status`, `tx_hash`,
`confirmations` and `confirmed_at`: every other field of the record is
preserved; `tx_hash` changes only when a (truthy) hash argument is supplied;
`confirmations` changes only when that argument is supplied; `confirmed_at`
changes only when the new status is `"confirmed"`; and when the record file
cannot be read or parsed, it is left unchanged. -/
theorem updatePaymentRecord_frame (r : PaymentRecord) (status : String)
    (txHash : Option String) (confirmations : Option Nat) (now : String) :
    (updatePaymentRecord r status txHash confirmations now).rest = r.rest ∧
    ((updatePaymentRecord r status txHash confirmations now).tx_hash ≠ r.tx_hash →
      ∃ h, txHash = some h ∧ h ≠ "") ∧
    ((updatePaymentRecord r status txHash confirmations now).confirmations ≠
        r.confirmations → ∃ c, confirmations = some c) ∧
    ((updatePaymentRecord r status txHash confirmations now).confirmed_at ≠
        r.confirmed_at → status = "confirmed") ∧
    (updatePaymentRecord r status txHash confirmations now).status = status ∧
    updatePaymentRecordFile none status txHash confirmations now = none := by
  refine ⟨rfl, ?_, ?_, ?_, rfl, rfl⟩
  · intro hchanged
    match htx : txHash with
    | none => simp [updatePaymentRecord, htx] at hchanged
    | some h =>
        refine ⟨h, rfl, ?_⟩
        intro hempty
        simp [updatePaymentRecord, htx, hempty] at hchanged
  · intro hchanged
    match hc : confirmations with
    | none => simp [updatePaymentRecord, hc] at hchanged
    | some c => exact ⟨c, rfl⟩
  · intro hchanged
    by_cases hs : status = "confirmed"
    · exact hs
    · simp [updatePaymentRecord, hs] at hchanged

/-- C10 witness: a concrete update that only touches the status. -/
theorem updatePaymentRecord_frame_witness :
    (updatePaymentRecord
        { status := "pending", tx_hash := none, confirmations := none,
          confirmed_at := none, rest := [("token", "USDC")] }
        "confirming" none none "t0").rest = [("token", "USDC")] ∧
    ((updatePaymentRecord
        { status := "pending", tx_hash := none, confirmations := none,
          confirmed_at := none, rest := [("token", "USDC")] }
        "confirming" none none "t0").tx_hash ≠ none →
      ∃ h, (none : Option String) = some h ∧ h ≠ "") ∧
    ((updatePaymentRecord
        { status := "pending", tx_hash := none, confirmations := none,
          confirmed_at := none, rest := [("token", "USDC")] }
        "confirming" none none "t0").confirmations ≠ none →
      ∃ c, (none : Option Nat) = some c) ∧
    ((updatePaymentRecord
        { status := "pending", tx_hash := none, confirmations := none,
          confirmed_at := none, rest := [("token", "USDC")] }
        "confirming" none none "t0").confirmed_at ≠ none →
      "confirming" = "confirmed") ∧
    (updatePaymentRecord
        { status := "pending", tx_hash := none, confirmations := none,
          confirmed_at := none, rest := [("token", "USDC")] }
        "confirming" none none "t0").status = "confirming" ∧
    updatePaymentRecordFile none "confirming" none none "t0" = none :=
  updatePaymentRecord_frame
    { status := "pending", tx_hash := none, confirmations := none,
      confirmed_at := none, rest := [("token", "USDC")] }
    "confirming" none none "t0"

end Railclaw

namespace Railclaw

/-! ## Historical log scans in chunks of 10 blocks

Both monitors scan a historical block range with the same loop shape
(monitor-transaction.ts lines 129–148, monitor-solana-deposit.ts lines
483–502):

`for (let cs = fromBlock; cs <= currentBlock; cs += MAX_BLOCK_RANGE)` with
`ce = Math.min(cs + MAX_BLOCK_RANGE - 1, currentBlock)` and
`MAX_BLOCK_RANGE = 10`; each chunk's `getLogs` call sits in a `try { … }
catch { /* skip chunk */ }`, so a failing chunk contributes nothing and the
loop continues with the next chunk. -/

/-- The list of `(cs, ce)` chunk bounds the loop iterates over. -/
def chunkedRanges (cs b : Nat) : List (Nat × Nat) :=
  if cs ≤ b then (cs, min (cs + 9) b) :: chunkedRanges (cs + 10) b
  else []
termination_by b + 1 - cs

/-- The logs collected by the chunk loop: each chunk contributes the result
of its `getLogs` call, or nothing when the call failed (`none`). -/
def scanChunks (getLogs : Nat × Nat → Option (List EvmLog)) :
    List (Nat × Nat) → List EvmLog
  | [] => []
  | c :: rest => ((getLogs c).getD []) ++ scanChunks getLogs rest

/-- The blocks covered by the chunk list, in order. -/
def chunkBlocks (chunks : List (Nat × Nat)) : List Nat :=
  (chunks.map (fun c => List.range' c.1 (c.2 + 1 - c.1))).flatten

theorem chunkedRanges_join (n cs b : Nat) (hn : b + 1 - cs = n) :
    chunkBlocks (chunkedRanges cs b) = List.range' cs (b + 1 - cs) := by
  induction n using Nat.strong_induction_on generalizing cs with
  | _ n ih =>
    by_cases h : cs ≤ b
    · rw [chunkedRanges, if_pos h]
      have hrest : chunkBlocks (chunkedRanges (cs + 10) b) =
          List.range' (cs + 10) (b + 1 - (cs + 10)) := by
        exact ih (b + 1 - (cs + 10)) (by omega) (cs + 10) rfl
      unfold chunkBlocks at hrest ⊢
      simp only [List.map_cons, List.flatten_cons, hrest]
      by_cases hsmall : b ≤ cs + 9
      · have hmin : min (cs + 9) b = b := by omega
        have hz : b + 1 - (cs + 10) = 0 := by omega
        rw [hmin, hz]
        simp
      · have hmin : min (cs + 9) b = cs + 9 := by omega
        rw [hmin]
        have h10 : cs + 9 + 1 - cs = 10 := by omega
        rw [h10]
        have := List.range'_append cs 10 (b + 1 - (cs + 10)) 1
        simp only [Nat.one_mul] at this
        have harith : cs + 10 = cs + 1 * 10 := by omega
        rw [← harith] at this
        rw [this]
        congr 1
        omega
    · rw [chunkedRanges, if_neg h]
      have : b + 1 - cs = 0 := by omega
      rw [this]
      rfl

theorem chunkedRanges_length (n cs b : Nat) (hn : b + 1 - cs = n) :
    (chunkedRanges cs b).length = (b + 1 - cs + 9) / 10 := by
  induction n using Nat.strong_induction_on generalizing cs with
  | _ n ih =>
    by_cases h : cs ≤ b
    · rw [chunkedRanges, if_pos h]
      have hrest : (chunkedRanges (cs + 10) b).length =
          (b + 1 - (cs + 10) + 9) / 10 :=
        ih (b + 1 - (cs + 10)) (by omega) (cs + 10) rfl
      simp only [List.length_cons, hrest]
      omega
    · rw [chunkedRanges, if_neg h]
      simp only [List.length_nil]
      omega

theorem chunkedRanges_width (n cs b : Nat) (hn : b + 1 - cs = n) :
    ∀ c ∈ chunkedRanges cs b, c.2 + 1 - c.1 ≤ 10 ∧ c.1 ≤ c.2 := by
  induction n using Nat.strong_induction_on generalizing cs with
  | _ n ih =>
    by_cases h : cs ≤ b
    · rw [chunkedRanges, if_pos h]
      intro c hc
      rcases List.mem_cons.1 hc with hhead | htail
      · subst hhead
        constructor <;> simp <;> omega
      · exact ih (b + 1 - (cs + 10)) (by omega) (cs + 10) rfl c htail
    · rw [chunkedRanges, if_neg h]
      intro c hc
      exact absurd hc (List.not_mem_nil c)

theorem scanChunks_append (getLogs : Nat × Nat → Option (List EvmLog))
    (l1 l2 : List (Nat × Nat)) :
    scanChunks getLogs (l1 ++ l2) = scanChunks getLogs l1 ++ scanChunks getLogs l2 := by
  induction l1 with
  | nil => rfl
  | cons c rest ih =>
      simp only [List.cons_append, scanChunks, List.append_eq, ih,
        List.append_assoc]

end Railclaw

namespace Railclaw

/-- C9. A historical scan of blocks `[a, b]` visits consecutive chunks of at
most 10 blocks whose concatenation is exactly the block sequence
`a, a+1, …, b` (every block covered exactly once), there are exactly
`⌈(b − a + 1)/10⌉` chunks, and a chunk whose `getLogs` call fails contributes
nothing while every other chunk — in particular every later chunk — still
contributes its own logs. -/
theorem historical_scan_chunking (a b : Nat)
    (getLogs : Nat × Nat → Option (List EvmLog))
    (before after : List (Nat × Nat)) (c0 : Nat × Nat)
    (hfail : getLogs c0 = none) :
    chunkBlocks (chunkedRanges a b) = List.range' a (b + 1 - a) ∧
    (chunkedRanges a b).length = (b + 1 - a + 9) / 10 ∧
    (∀ c ∈ chunkedRanges a b, c.2 + 1 - c.1 ≤ 10 ∧ c.1 ≤ c.2) ∧
    scanChunks getLogs (before ++ c0 :: after) =
      scanChunks getLogs before ++ scanChunks getLogs after := by
  refine ⟨chunkedRanges_join (b + 1 - a) a b rfl,
    chunkedRanges_length (b + 1 - a) a b rfl,
    chunkedRanges_width (b + 1 - a) a b rfl, ?_⟩
  rw [scanChunks_append]
  congr 1
  show ((getLogs c0).getD []) ++ scanChunks getLogs after = scanChunks getLogs after
  rw [hfail]
  rfl

/-- C9 witness: scanning blocks `[3, 25]` (23 blocks, 3 chunks), with a
`getLogs` oracle that fails on every chunk. -/
theorem historical_scan_chunking_witness :
    chunkBlocks (chunkedRanges 3 25) = List.range' 3 (25 + 1 - 3) ∧
    (chunkedRanges 3 25).length = (25 + 1 - 3 + 9) / 10 ∧
    (∀ c ∈ chunkedRanges 3 25, c.2 + 1 - c.1 ≤ 10 ∧ c.1 ≤ c.2) ∧
    scanChunks (fun _ => (none : Option (List EvmLog))) ([] ++ (3, 12) :: []) =
      scanChunks (fun _ => (none : Option (List EvmLog))) [] ++
        scanChunks (fun _ => (none : Option (List EvmLog))) [] :=
  historical_scan_chunking 3 25 (fun _ => none) [] [] (3, 12) rfl

end Railclaw

namespace Railclaw

/-! ## Bridge pipeline monitor (`src/shared/scripts/monitor-solana-deposit.ts`)

Stage 1 polls the deposit ATA balance, stage 2 submits the Across deposit on
Solana, stage 3 watches the destination SpokePool for the `FilledRelay` event.
The remote outcomes (balance polls, the stage-2 transaction submission, the
delivered fill logs) are passed to `bridgeMonitorMain` as explicit
arguments. -/

/-- The stage-1 threshold (lines 220–222):
`slippage = (expectedRaw * 100n) / 10000n`, `minExpected = expectedRaw - slippage`. -/
def minExpectedOf (expectedRaw : Nat) : Nat :=
  expectedRaw - expectedRaw * 100 / 10000

/-- `waitForSolanaDeposit` (lines 210–257): each poll either throws
(`AccountNotFound` while the ATA does not exist yet, or a transient RPC error
— both caught, logged, and benign: `none` here) or observes a balance.  The
loop returns the first observed balance `≥ minExpected`; if the deadline
passes without one it returns `0` (line 256). -/
def waitForSolanaDepositResult (expectedRaw : Nat)
    (polls : List (Option Nat)) : Nat :=
  match polls with
  | [] => 0
  | none :: rest => waitForSolanaDepositResult expectedRaw rest
  | some bal :: rest =>
      if minExpectedOf expectedRaw ≤ bal then bal
      else waitForSolanaDepositResult expectedRaw rest

/-- A decoded `FilledRelay` log: raw topics plus the parsed non-indexed
fields used by `isMatchingLog` (`recipient`, `outputToken` as bytes32 words,
`outputAmount`). -/
structure FillLog where
  topics : List Nat
  recipient : Nat
  outputToken : Nat
  outputAmount : Nat
  txHash : String
  blockNumber : Nat
deriving Repr, DecidableEq

/-- `bytes32ToAddress` (lines 413–415): bytes32 fields are right-aligned EVM
addresses — keep the last 20 bytes. -/
def bytes32ToAddress (b : Nat) : Nat := b % TWO160

/-- The per-payment data `waitForEVMFill` matches against (lines 394–410). -/
structure FillFilter where
  filledTopic : Nat
  solanaChainId : Nat
  wallet : Nat
  outputTokenAddr : Nat
  rawOutputAmount : Nat
deriving Repr, DecidableEq

/-- `minOutput = (expectedOutputRaw * 9900n) / 10000n` (line 407). -/
def minOutputOf (raw : Nat) : Nat := raw * 9900 / 10000

/-- `maxOutput = (expectedOutputRaw * 10100n) / 10000n` (line 408). -/
def maxOutputOf (raw : Nat) : Nat := raw * 10100 / 10000

/-- The `getLogs` / subscription topic filter
`[filledTopic, originChainIdTopic]` (lines 468, 489): only `FilledRelay` logs
whose indexed `originChainId` (`topics[1]`) equals the configured Solana
Across chain id are delivered. -/
def fillDelivered (f : FillFilter) (log : FillLog) : Bool :=
  log.topics.length == 4 && log.topics.getD 0 0 == f.filledTopic &&
    log.topics.getD 1 0 == f.solanaChainId

/-- `isMatchingLog` (lines 417–431). -/
def isMatchingLog (f : FillFilter) (log : FillLog) : Bool :=
  bytes32ToAddress log.recipient == f.wallet &&
    bytes32ToAddress log.outputToken == f.outputTokenAddr &&
    decide (minOutputOf f.rawOutputAmount ≤ log.outputAmount) &&
    decide (log.outputAmount ≤ maxOutputOf f.rawOutputAmount)

/-- `waitForEVMFill` resolves with the first delivered log that matches
(WebSocket or historical sweep — whichever sees it first, lines 450–463). -/
def waitForEVMFillResult (f : FillFilter) (logs : List FillLog) :
    Option FillLog :=
  logs.find? (fun log => fillDelivered f log && isMatchingLog f log)

/-- The observable outcome of one bridge monitor run (`main`, lines 508–680):
the sequence of `status` values written to `pending/<payment_id>.json`, the
status reported on stdout, how many times the sealed temp key was decrypted,
the input amount handed to `callDepositV3`, and the files written under
`notifications/`. -/
structure BridgeRunResult where
  recordWrites : List String
  stdoutStatus : String
  keyReads : Nat
  depositInputAmount : Option Nat
  notificationWrites : List (String × String)
deriving Repr, DecidableEq

/-- The status left in the record file after the run; the record is created
with status `waiting_deposit`. -/
def bridgeFinalRecordStatus (run : BridgeRunResult) : String :=
  (run.recordWrites.getLast?).getD "waiting_deposit"

/-- The non-resume path of `main` (lines 541–680).  Stage 1 returning `0n`
marks the record `expired` (lines 551–560); otherwise the record is updated
to `deposit_received` (563–565) and the sealed key decrypted once (568).  A
`callDepositV3` failure prints a status-`error` JSON and exits without any
further record write (572–581).  On success the record is updated to
`bridging` (583–586); a stage-3 timeout marks it `expired` (593–602); a match
marks it `confirmed` and writes the one `bridge_confirmed` notification file
(604–648). -/
def bridgeMonitorMain (paymentId : String) (f : FillFilter)
    (expectedRaw : Nat) (polls : List (Option Nat))
    (stage2 : Except String String) (fillLogs : List FillLog) :
    BridgeRunResult :=
  let actualInputAmount := waitForSolanaDepositResult expectedRaw polls
  if actualInputAmount = 0 then
    { recordWrites := ["expired"], stdoutStatus := "expired", keyReads := 0,
      depositInputAmount := none, notificationWrites := [] }
  else
    match stage2 with
    | .error _ =>
        { recordWrites := ["deposit_received"], stdoutStatus := "error",
          keyReads := 1, depositInputAmount := some actualInputAmount,
          notificationWrites := [] }
    | .ok _ =>
        match waitForEVMFillResult f fillLogs with
        | none =>
            { recordWrites := ["deposit_received", "bridging", "expired"],
              stdoutStatus := "expired", keyReads := 1,
              depositInputAmount := some actualInputAmount,
              notificationWrites := [] }
        | some _ =>
            { recordWrites := ["deposit_received", "bridging", "confirmed"],
              stdoutStatus := "confirmed", keyReads := 1,
              depositInputAmount := some actualInputAmount,
              notificationWrites := [(paymentId, "bridge_confirmed")] }

/-- The observable outcome of one direct monitor run
(monitor-transaction.ts `main`, lines 210–338): the record file after the
run, the stdout status, and the files written under `notifications/`.  The
confirmed path sends an optional Telegram message (a network call, lines
268–314) and writes no file outside `pending/`. -/
structure DirectRunResult where
  record : Option PaymentRecord
  stdoutStatus : String
  notificationWrites : List (String × String)
deriving Repr, DecidableEq

def directMonitorMain (record0 : Option PaymentRecord) (found : Option EvmLog)
    (finalConfirmations requiredConfirmations : Nat) (now : String) :
    DirectRunResult :=
  match found with
  | none =>
      { record := updatePaymentRecordFile record0 "expired" none none now,
        stdoutStatus := "expired", notificationWrites := [] }
  | some log =>
      let r1 := updatePaymentRecordFile record0 "confirming" (some log.txHash)
        (some 0) now
      if requiredConfirmations ≤ finalConfirmations then
        { record := updatePaymentRecordFile r1 "confirmed" (some log.txHash)
            (some finalConfirmations) now,
          stdoutStatus := "confirmed", notificationWrites := [] }
      else
        { record := updatePaymentRecordFile r1 "expired" none none now,
          stdoutStatus := "expired", notificationWrites := [] }

end Railclaw

namespace Railclaw

/-- A `FilledRelay` matcher for a payment with `raw_output_amount = 101`. -/
def narrowFillFilter : FillFilter :=
  { filledTopic := 7, solanaChainId := 34268394551451, wallet := 5,
    outputTokenAddr := 9, rawOutputAmount := 101 }

/-- A delivered fill paying 99 base units against a raw output of 101. -/
def lowFillLog : FillLog :=
  { topics := [7, 34268394551451, 0, 0], recipient := 5, outputToken := 9,
    outputAmount := 99, txHash := "0xf1", blockNumber := 2 }

/-- C3 (counterexample). The claim bounds `outputAmount` below by
`0.99·raw_output_amount`; the code's bound is the floor
`raw_output_amount·9900/10000`.  With `raw_output_amount = 101` the monitor
accepts a fill of `outputAmount = 99`, but `0.99·101 = 99.99 > 99`. -/
theorem bridge_fill_window_counterexample :
    waitForEVMFillResult narrowFillFilter [lowFillLog] = some lowFillLog ∧
    ¬((99 / 100 : ℚ) * 101 ≤ (lowFillLog.outputAmount : ℚ)) := by
  refine ⟨by decide, ?_⟩
  show ¬((99 / 100 : ℚ) * 101 ≤ ((99 : Nat) : ℚ))
  norm_num

/-- C3 (amended). Every `FilledRelay` log the bridge monitor confirms on has
its indexed `originChainId` (`topics[1]`) equal to the configured Solana
Across chain id, its recipient (last 20 bytes of the non-indexed bytes32)
equal to the monitored wallet, its outputToken (last 20 bytes) equal to the
configured output token on the settlement chain, and its outputAmount in the
integer window `[raw·9900/10000, raw·10100/10000]` (floor division; the upper
bound implies `outputAmount ≤ 1.01·raw`, while the accepted lower bound can
be one base unit below `0.99·raw`). -/
theorem bridge_fill_matched_props (f : FillFilter) (logs : List FillLog)
    (log : FillLog) (hfound : waitForEVMFillResult f logs = some log) :
    log.topics.getD 1 0 = f.solanaChainId ∧
    bytes32ToAddress log.recipient = f.wallet ∧
    bytes32ToAddress log.outputToken = f.outputTokenAddr ∧
    f.rawOutputAmount * 9900 / 10000 ≤ log.outputAmount ∧
    log.outputAmount ≤ f.rawOutputAmount * 10100 / 10000 ∧
    (log.outputAmount : ℚ) ≤ (101 / 100) * (f.rawOutputAmount : ℚ) := by
  have hp := List.find?_some hfound
  simp only [Bool.and_eq_true, decide_eq_true_eq, fillDelivered, isMatchingLog,
    beq_iff_eq, minOutputOf, maxOutputOf] at hp
  obtain ⟨⟨⟨hlen, htop0⟩, htop1⟩, ⟨⟨⟨hrecip, htoken⟩, hmin⟩, hmax⟩⟩ := hp
  refine ⟨htop1, hrecip, htoken, hmin, hmax, ?_⟩
  calc (log.outputAmount : ℚ)
      ≤ ((f.rawOutputAmount * 10100 / 10000 : Nat) : ℚ) := by exact_mod_cast hmax
    _ ≤ ((f.rawOutputAmount * 10100 : Nat) : ℚ) / 10000 := by
        exact_mod_cast Nat.cast_div_le
    _ = (101 / 100) * (f.rawOutputAmount : ℚ) := by push_cast; ring

/-- C3 witness: the amended properties evaluated at the concrete accepted
fill. -/
theorem bridge_fill_matched_props_witness :
    lowFillLog.topics.getD 1 0 = narrowFillFilter.solanaChainId ∧
    bytes32ToAddress lowFillLog.recipient = narrowFillFilter.wallet ∧
    bytes32ToAddress lowFillLog.outputToken = narrowFillFilter.outputTokenAddr ∧
    narrowFillFilter.rawOutputAmount * 9900 / 10000 ≤ lowFillLog.outputAmount ∧
    lowFillLog.outputAmount ≤ narrowFillFilter.rawOutputAmount * 10100 / 10000 ∧
    (lowFillLog.outputAmount : ℚ) ≤
      (101 / 100) * (narrowFillFilter.rawOutputAmount : ℚ) :=
  bridge_fill_matched_props narrowFillFilter [lowFillLog] lowFillLog (by decide)

end Railclaw

namespace Railclaw

/-- C6. Stage 1 of the bridge monitor: the code's threshold
`expectedRaw - expectedRaw·100/10000` accepts an integer balance exactly when
`balance ≥ 0.99·expectedRaw` (i.e. `100·balance ≥ 99·expectedRaw`); an
errored poll (`AccountNotFound` before the ATA exists) is skipped and polling
continues; the loop proceeds with the first balance meeting the threshold; a
run that proceeds writes `deposit_received` as its first record update and
hands exactly the observed balance to stage 2 as the deposit input amount;
and a run in which no sufficient balance is observed before the deadline
leaves the record in final status `expired`. -/
theorem bridge_stage1_deposit_watch (paymentId : String) (f : FillFilter)
    (expectedRaw : Nat) (polls : List (Option Nat))
    (stage2 : Except String String) (fillLogs : List FillLog) :
    (∀ bal, minExpectedOf expectedRaw ≤ bal ↔ 99 * expectedRaw ≤ 100 * bal) ∧
    (∀ bal rest, waitForSolanaDepositResult expectedRaw (some bal :: rest) =
        if 99 * expectedRaw ≤ 100 * bal then bal
        else waitForSolanaDepositResult expectedRaw rest) ∧
    (waitForSolanaDepositResult expectedRaw (none :: polls) =
        waitForSolanaDepositResult expectedRaw polls) ∧
    (waitForSolanaDepositResult expectedRaw polls ≠ 0 →
      (bridgeMonitorMain paymentId f expectedRaw polls stage2 fillLogs).recordWrites.head? =
          some "deposit_received" ∧
        (bridgeMonitorMain paymentId f expectedRaw polls stage2 fillLogs).depositInputAmount =
          some (waitForSolanaDepositResult expectedRaw polls)) ∧
    (waitForSolanaDepositResult expectedRaw polls = 0 →
      bridgeFinalRecordStatus
          (bridgeMonitorMain paymentId f expectedRaw polls stage2 fillLogs) =
        "expired") := by
  have hthr : ∀ bal, minExpectedOf expectedRaw ≤ bal ↔
      99 * expectedRaw ≤ 100 * bal := by
    intro bal
    unfold minExpectedOf
    omega
  refine ⟨hthr, ?_, ?_, ?_, ?_⟩
  · intro bal rest
    show (if minExpectedOf expectedRaw ≤ bal then bal
        else waitForSolanaDepositResult expectedRaw rest) = _
    by_cases h : 99 * expectedRaw ≤ 100 * bal
    · rw [if_pos ((hthr bal).2 h), if_pos h]
    · rw [if_neg (fun hc => h ((hthr bal).1 hc)), if_neg h]
  · rfl
  · intro hne
    cases stage2 with
    | error e => simp [bridgeMonitorMain, hne]
    | ok s =>
        cases hfill : waitForEVMFillResult f fillLogs <;>
          simp [bridgeMonitorMain, hne, hfill]
  · intro hz
    simp [bridgeMonitorMain, hz, bridgeFinalRecordStatus]

/-- C7. The claim (and spec) says a stage-2 failure leaves the payment
record in final status `error`.  The code prints a status-`error` JSON on
stdout and exits (monitor-solana-deposit.ts lines 575–580) without writing
the record again, so the record file keeps the previously written status
`deposit_received` — every other terminal path (`expired` twice,
`confirmed`) does update the record, making this path's missing write a
slip.  Evaluated at a concrete failing run: stage 1 observes a sufficient
balance of 100000000 raw units, then the deposit submission throws. -/
theorem bridge_stage2_failure_record_status :
    bridgeFinalRecordStatus
        (bridgeMonitorMain "pay_7" narrowFillFilter (100 * 10 ^ 6)
          [some (100 * 10 ^ 6)] (Except.error "TxError: deposit failed") []) =
      "deposit_received" ∧
    (bridgeMonitorMain "pay_7" narrowFillFilter (100 * 10 ^ 6)
        [some (100 * 10 ^ 6)] (Except.error "TxError: deposit failed")
        []).stdoutStatus = "error" ∧
    bridgeFinalRecordStatus
        (bridgeMonitorMain "pay_7" narrowFillFilter (100 * 10 ^ 6)
          [some (100 * 10 ^ 6)] (Except.error "TxError: deposit failed") []) ≠
      "error" := by
  refine ⟨by decide, by decide, by decide⟩

end Railclaw

namespace Railclaw

/-- C8 (counterexample). The claim says every monitor that reaches
`confirmed` enqueues one `notifications/<payment_id>.json` file (of type
`direct_confirmed` or `bridge_confirmed`).  The direct monitor's confirmed
path updates the record and optionally sends a Telegram message, but writes
no notification file: a concrete confirmed direct run has an empty
notification-write list. -/
theorem direct_confirmed_no_notification :
    (directMonitorMain
        (some { status := "pending", tx_hash := none, confirmations := none,
                confirmed_at := none, rest := [("token", "USDC")] })
        (some sampleTransferLog) 20 20 "t1").stdoutStatus = "confirmed" ∧
    (directMonitorMain
        (some { status := "pending", tx_hash := none, confirmations := none,
                confirmed_at := none, rest := [("token", "USDC")] })
        (some sampleTransferLog) 20 20 "t1").notificationWrites = [] := by
  refine ⟨by decide, by decide⟩

/-- C8 (amended). The bridge monitor, on reaching `confirmed`, writes exactly
one notification file keyed by `payment_id` with type `bridge_confirmed`, and
writes none on `expired` or `error` outcomes; the direct monitor never writes
a notification file at all (on confirmation it reports via stdout and an
optional Telegram message). -/
theorem monitor_notification_discipline (record0 : Option PaymentRecord)
    (found : Option EvmLog) (finalConfirmations requiredConfirmations : Nat)
    (now : String) (paymentId : String) (f : FillFilter) (expectedRaw : Nat)
    (polls : List (Option Nat)) (stage2 : Except String String)
    (fillLogs : List FillLog) :
    (directMonitorMain record0 found finalConfirmations requiredConfirmations
        now).notificationWrites = [] ∧
    (bridgeFinalRecordStatus
          (bridgeMonitorMain paymentId f expectedRaw polls stage2 fillLogs) =
        "confirmed" →
      (bridgeMonitorMain paymentId f expectedRaw polls stage2
          fillLogs).notificationWrites = [(paymentId, "bridge_confirmed")]) ∧
    (bridgeFinalRecordStatus
          (bridgeMonitorMain paymentId f expectedRaw polls stage2 fillLogs) ≠
        "confirmed" →
      (bridgeMonitorMain paymentId f expectedRaw polls stage2
          fillLogs).notificationWrites = []) := by
  refine ⟨?_, ?_, ?_⟩
  · cases found with
    | none => rfl
    | some log =>
        by_cases h : requiredConfirmations ≤ finalConfirmations <;>
          simp [directMonitorMain, h]
  all_goals
    by_cases hz : waitForSolanaDepositResult expectedRaw polls = 0
  · intro hconf
    simp [bridgeMonitorMain, hz, bridgeFinalRecordStatus] at hconf
  · intro hconf
    cases stage2 with
    | error e =>
        simp [bridgeMonitorMain, hz, bridgeFinalRecordStatus] at hconf
    | ok s =>
        cases hfill : waitForEVMFillResult f fillLogs
        · simp [bridgeMonitorMain, hz, hfill, bridgeFinalRecordStatus] at hconf
        · simp [bridgeMonitorMain, hz, hfill]
  · intro hnconf
    simp [bridgeMonitorMain, hz]
  · intro hnconf
    cases stage2 with
    | error e => simp [bridgeMonitorMain, hz]
    | ok s =>
        cases hfill : waitForEVMFillResult f fillLogs
        · simp [bridgeMonitorMain, hz, hfill]
        · exact absurd (by simp [bridgeMonitorMain, hz, hfill,
            bridgeFinalRecordStatus]) hnconf

end Railclaw

namespace Railclaw

/-! ## Bridge record creation (C5)

The record consumed by the bridge monitor (`PendingRecord`,
monitor-solana-deposit.ts lines 64–88) carries `bridge.temp_wallet_pubkey`,
`bridge.deposit_address` and `bridge.temp_private_key_enc`, which the
monitor decrypts once at line 568.  The record-creation code that generates
these fields is not in the source tree: the checked-in
`src/shared/scripts/bridge-payment.ts` is an older variant in which the user
submits the deposit from their own wallet and the record has none of these
fields; only the consumer and the orchestrator documents describing the
generation (SOUL.md: the bridge executor "generates a temporary Solana
wallet as the deposit address") are present. -/

structure SolKeypair where
  pub : Nat
  priv : Nat
deriving Repr, DecidableEq

/-- The temp-wallet fields of a freshly created bridge payment record. -/
structure BridgeTempWalletFields where
  temp_wallet_pubkey : Nat
  deposit_address : Nat
  temp_private_key_enc : Nat
deriving Repr, DecidableEq

/-- Modelled from the spec: the bridge-route record creation is missing from
the source tree (only its consumer `monitor-solana-deposit.ts` and the
orchestrator documents are present).  Per the spec: "For bridge: generate a
fresh Solana keypair, derive its USDC ATA (that is the `deposit_address`),
seal the private key."  `deriveATA` and `seal` are the Solana-adapter ATA
derivation and the credential-encryption primitive, both external to the
core. -/
def createBridgeRecordModel (deriveATA : Nat → Nat → Nat) (sealKey : Nat → Nat)
    (usdcMint : Nat) (kp : SolKeypair) : BridgeTempWalletFields :=
  { temp_wallet_pubkey := kp.pub
    deposit_address := deriveATA kp.pub usdcMint
    temp_private_key_enc := sealKey kp.priv }

/-- C5. The bridge payment record carries the fresh keypair's public key as
`temp_wallet_pubkey`, its USDC associated token account as `deposit_address`,
and its sealed private key as `temp_private_key_enc` — written once at
creation; and the bridge monitor decrypts the sealed key at most once per
run: exactly once in every run that proceeds to stage 2 (where it signs the
funding, approve and deposit transactions), and never in a run that expires
in stage 1. -/
theorem bridge_record_temp_wallet (deriveATA : Nat → Nat → Nat)
    (sealKey : Nat → Nat) (usdcMint : Nat) (kp : SolKeypair) (paymentId : String)
    (f : FillFilter) (expectedRaw : Nat) (polls : List (Option Nat))
    (stage2 : Except String String) (fillLogs : List FillLog) :
    (createBridgeRecordModel deriveATA sealKey usdcMint kp).temp_wallet_pubkey =
        kp.pub ∧
    (createBridgeRecordModel deriveATA sealKey usdcMint kp).deposit_address =
        deriveATA kp.pub usdcMint ∧
    (createBridgeRecordModel deriveATA sealKey usdcMint kp).temp_private_key_enc =
        sealKey kp.priv ∧
    (bridgeMonitorMain paymentId f expectedRaw polls stage2 fillLogs).keyReads ≤ 1 ∧
    ((bridgeMonitorMain paymentId f expectedRaw polls stage2 fillLogs).keyReads = 1 ↔
      waitForSolanaDepositResult expectedRaw polls ≠ 0) := by
  refine ⟨rfl, rfl, rfl, ?_, ?_⟩ <;>
    by_cases hz : waitForSolanaDepositResult expectedRaw polls = 0
  · simp [bridgeMonitorMain, hz]
  · cases stage2 with
    | error e => simp [bridgeMonitorMain, hz]
    | ok s =>
        cases hfill : waitForEVMFillResult f fillLogs <;>
          simp [bridgeMonitorMain, hz, hfill]
  · simp [bridgeMonitorMain, hz]
  · cases stage2 with
    | error e => simp [bridgeMonitorMain, hz]
    | ok s =>
        cases hfill : waitForEVMFillResult f fillLogs <;>
          simp [bridgeMonitorMain, hz, hfill]

end Railclaw

namespace Railclaw

/-! ## Delegate PDA seed bytes vs. deposit instruction bytes (C4)

`computeDelegatePDA` (monitor-solana-deposit.ts lines 163–207) hashes a Borsh
`DepositSeedData` byte sequence with keccak256 to obtain the PDA seed;
`callDepositV3` (lines 336–377) builds the deposit instruction body as the
8-byte Anchor discriminator followed by the raw Borsh parameters.  Bytes are
`List Nat`. -/

/-- `writeBigUInt64LE`: 8 bytes, little-endian. -/
def u64LE (n : Nat) : List Nat :=
  (List.range 8).map (fun i => n / 256 ^ i % 256)

/-- `writeUInt32LE`: 4 bytes, little-endian. -/
def u32LE (n : Nat) : List Nat :=
  (List.range 4).map (fun i => n / 256 ^ i % 256)

/-- `u64ToBEBytes32` (lines 129–133): a 32-byte buffer with the u64 written
big-endian into the last 8 bytes (EVM uint256 style). -/
def u64ToBEBytes32 (n : Nat) : List Nat :=
  List.replicate 24 0 ++ (List.range 8).map (fun i => n / 256 ^ (7 - i) % 256)

/-- `evmAddressToBytes32` (lines 122–126): the 20-byte EVM address
left-padded to 32 bytes. -/
def evmAddressToBytes32 (addr : Nat) : List Nat :=
  List.replicate 12 0 ++ (List.range 20).map (fun i => addr / 256 ^ (19 - i) % 256)

/-- `SHA256("global:deposit")[:8]` (line 338). -/
def DEPOSIT_DISCRIMINATOR : List Nat := [242, 35, 198, 137, 82, 225, 242, 182]

/-- The `DepositSeedData` serialization hashed with keccak256 in
`computeDelegatePDA` (lines 182–196): depositor[32], recipient[32],
inputToken[32], outputToken[32], inputAmount u64 LE, outputAmount 32-byte BE,
destinationChainId u64 LE, exclusiveRelayer[32], quoteTimestamp u32 LE,
fillDeadline u32 LE, exclusivityParameter u32 LE, a u32 LE message length
prefix, then the message bytes. -/
def delegateSeedData (depositor recipient inputToken outputToken : List Nat)
    (inputAmount : Nat) (outputAmount : List Nat) (destinationChainId : Nat)
    (exclusiveRelayer : List Nat)
    (quoteTimestamp fillDeadline exclusivityParameter : Nat)
    (message : List Nat) : List Nat :=
  depositor ++ recipient ++ inputToken ++ outputToken ++
    u64LE inputAmount ++ outputAmount ++ u64LE destinationChainId ++
    exclusiveRelayer ++ u32LE quoteTimestamp ++ u32LE fillDeadline ++
    u32LE exclusivityParameter ++ u32LE message.length ++ message

/-- The deposit instruction body built in `callDepositV3` (lines 342–357):
the discriminator, then the same parameters, with the message length prefix
hardcoded to 0 and no message bytes following (the message is always
empty, line 296). -/
def depositInstructionData (depositor recipient inputToken outputToken : List Nat)
    (inputAmount : Nat) (outputAmount : List Nat) (destinationChainId : Nat)
    (exclusiveRelayer : List Nat)
    (quoteTimestamp fillDeadline exclusivityParameter : Nat) : List Nat :=
  DEPOSIT_DISCRIMINATOR ++
    (depositor ++ recipient ++ inputToken ++ outputToken ++
      u64LE inputAmount ++ outputAmount ++ u64LE destinationChainId ++
      exclusiveRelayer ++ u32LE quoteTimestamp ++ u32LE fillDeadline ++
      u32LE exclusivityParameter ++ u32LE 0)

end Railclaw

namespace Railclaw

/-- C4. For all parameter values as used by `callDepositV3` (EVM addresses
left-padded to 32 bytes, outputAmount as a 32-byte big-endian buffer,
exclusiveRelayer all zeros, empty message), the byte sequence hashed with
keccak256 to produce the delegate PDA seed equals exactly the parameter bytes
the deposit instruction carries after its 8-byte Anchor discriminator —
depositor[32], recipient[32], inputToken[32], outputToken[32], inputAmount
u64 LE, outputAmount 32-byte BE, destinationChainId u64 LE,
exclusiveRelayer[32], quoteTimestamp u32 LE, fillDeadline u32 LE,
exclusivityParameter u32 LE, then the u32 LE message length prefix (0) with
no message bytes. -/
theorem delegate_seed_matches_instruction_bytes
    (depositorPk inputTokenPk : List Nat) (recipientAddr outputTokenAddr : Nat)
    (inputAmount outputAmount destinationChainId : Nat)
    (quoteTimestamp fillDeadline exclusivityParameter : Nat) :
    (depositInstructionData depositorPk (evmAddressToBytes32 recipientAddr)
        inputTokenPk (evmAddressToBytes32 outputTokenAddr) inputAmount
        (u64ToBEBytes32 outputAmount) destinationChainId
        (List.replicate 32 0) quoteTimestamp fillDeadline
        exclusivityParameter).drop 8 =
      delegateSeedData depositorPk (evmAddressToBytes32 recipientAddr)
        inputTokenPk (evmAddressToBytes32 outputTokenAddr) inputAmount
        (u64ToBEBytes32 outputAmount) destinationChainId
        (List.replicate 32 0) quoteTimestamp fillDeadline
        exclusivityParameter [] ∧
    (depositInstructionData depositorPk (evmAddressToBytes32 recipientAddr)
        inputTokenPk (evmAddressToBytes32 outputTokenAddr) inputAmount
        (u64ToBEBytes32 outputAmount) destinationChainId
        (List.replicate 32 0) quoteTimestamp fillDeadline
        exclusivityParameter).take 8 = DEPOSIT_DISCRIMINATOR := by
  unfold depositInstructionData delegateSeedData
  constructor
  · rw [show (8 : Nat) = DEPOSIT_DISCRIMINATOR.length from rfl, List.drop_left]
    simp
  · rw [show (8 : Nat) = DEPOSIT_DISCRIMINATOR.length from rfl, List.take_left]

end Railclaw
